import Mathlib

/-! Spectrum application resource handler.

A shallow embedding of `cloudflare/resource_cloudflare_spectrum_app.go`:
the expand/flatten mappers, the request builder and the Create / Read /
Update / Delete / Import operations, with the remote API client as a record
of functions and every remote call recorded in a call log.

Go run-time failures (a failed type assertion, a nil pointer dereference, an
index out of range) are values of `GoPanic`; an operation that panics reports
the local state as it stood when the panic happened.
-/

namespace SpectrumApp

/-! ## Go values and run-time failures -/

/-- A run-time failure of the Go program. -/
inductive GoPanic where
  /-- A type assertion `x.(T)` on a value whose dynamic type is not `T`; `want` is `T`. -/
  | interfaceConversion (want : String)
  /-- A field read or method call through a nil pointer. -/
  | nilPointerDereference
  /-- An index expression `xs[i]` with `i` outside the slice. -/
  | indexOutOfRange
  deriving DecidableEq, Repr

/-- A value of Go type `interface{}`, tagged with its dynamic type. -/
inductive GoValue where
  /-- The nil interface value (also what a map gives for a missing key). -/
  | nil
  /-- A `string`. -/
  | str (s : String)
  /-- An `int`. -/
  | int (n : Int)
  /-- A `bool`. -/
  | bool (b : Bool)
  /-- A slice: `[]interface{}`, `[]string`, `[]map[string]interface{}`. -/
  | slice (xs : List GoValue)
  /-- A `map[string]interface{}`, as its key/value pairs. -/
  | map (kvs : List (String × GoValue))
  /-- A `*schema.Set`, as its elements. -/
  | set (xs : List GoValue)

/-- The type assertion `v.(string)`. -/
def assertString (v : GoValue) : Except GoPanic String :=
  match v with
  | .str s => .ok s
  | _ => .error (.interfaceConversion "string")

/-- The type assertion `v.(int)`. -/
def assertInt (v : GoValue) : Except GoPanic Int :=
  match v with
  | .int n => .ok n
  | _ => .error (.interfaceConversion "int")

/-- The type assertion `v.(bool)`. -/
def assertBool (v : GoValue) : Except GoPanic Bool :=
  match v with
  | .bool b => .ok b
  | _ => .error (.interfaceConversion "bool")

/-- The type assertion `v.(*schema.Set)` followed by `.List()`. -/
def assertSetList (v : GoValue) : Except GoPanic (List GoValue) :=
  match v with
  | .set xs => .ok xs
  | _ => .error (.interfaceConversion "*schema.Set")

/-- The type assertion `v.(map[string]interface{})`. -/
def assertMap (v : GoValue) : Except GoPanic (List (String × GoValue)) :=
  match v with
  | .map kvs => .ok kvs
  | _ => .error (.interfaceConversion "map[string]interface \x7b\x7d")

/-- The type assertion `v.([]interface{})`. -/
def assertSlice (v : GoValue) : Except GoPanic (List GoValue) :=
  match v with
  | .slice xs => .ok xs
  | _ => .error (.interfaceConversion "[]interface \x7b\x7d")

/-- The index expression `cfg[0]`. -/
def index0 (cfg : List GoValue) : Except GoPanic GoValue :=
  match cfg with
  | [] => .error .indexOutOfRange
  | x :: _ => .ok x

/-- The map read `m[key]`: the nil interface for a missing key. -/
def mapIndex (m : List (String × GoValue)) (key : String) : GoValue :=
  match m.lookup key with
  | some v => v
  | none => .nil

/-! ## The remote representation (package `cloudflare`) -/

/-- A point in time (`time.Time`), as nanoseconds since the epoch. -/
structure Time where
  unixNano : Int
  deriving DecidableEq, Repr

/-- The struct `cloudflare.SpectrumApplicationDNS`; `Typ` is the Go field `Type`. -/
structure SpectrumApplicationDNS where
  Typ : String
  Name : String
  deriving DecidableEq, Repr

/-- The struct `cloudflare.SpectrumApplicationOriginDNS`. -/
structure SpectrumApplicationOriginDNS where
  Name : String
  deriving DecidableEq, Repr

/-- The struct `cloudflare.SpectrumApplication`, with the fields the handler reads
or writes. The pointer fields `OriginDNS`, `CreatedOn`, `ModifiedOn` are `none`
when nil; the zero value is `application0`. -/
structure SpectrumApplication where
  ID : String
  Protocol : String
  DNS : SpectrumApplicationDNS
  OriginDirect : List String
  OriginPort : Int
  OriginDNS : Option SpectrumApplicationOriginDNS
  IPFirewall : Bool
  ProxyProtocol : Bool
  TLS : String
  CreatedOn : Option Time
  ModifiedOn : Option Time
  deriving DecidableEq, Repr

/-- The zero value `cloudflare.SpectrumApplication{}`. -/
def application0 : SpectrumApplication :=
  { ID := "", Protocol := "", DNS := { Typ := "", Name := "" }, OriginDirect := [],
    OriginPort := 0, OriginDNS := none, IPFirewall := false, ProxyProtocol := false,
    TLS := "", CreatedOn := none, ModifiedOn := none }

/-! ## Local state (`*schema.ResourceData`) -/

/-- One element of the `dns` list: the nested resource with `type` and `name`. -/
structure DnsBlock where
  typ : String
  name : String
  deriving DecidableEq, Repr

/-- One element of the `origin_dns` list: the nested resource with `name`. -/
structure OriginDnsBlock where
  name : String
  deriving DecidableEq, Repr

/-- The local state of one resource instance: the identifier (`d.Id()`) and one
field per attribute of the schema of `resourceCloudflareSpectrumApp`, each with
the type the schema declares (`dns`, `origin_direct`, `origin_dns` are
`TypeList`). The values are the ones `d.Get` reports, schema defaults applied. -/
structure ResourceData where
  id : String
  zone_id : String
  protocol : String
  dns : List DnsBlock
  origin_direct : List String
  origin_dns : List OriginDnsBlock
  origin_port : Int
  tls : String
  ip_firewall : Bool
  proxy_protocol : Bool
  created_on : String
  modified_on : String
  deriving DecidableEq, Repr

/-- The constant `cloudflareOn`. -/
def cloudflareOn : String := "on"

/-- The constant `cloudflareOff`. -/
def cloudflareOff : String := "off"

/-- What the user wrote in a configuration block: required attributes as they are,
optional attributes as `none` when left out. -/
structure Config where
  zone_id : String
  protocol : String
  dns : List DnsBlock
  origin_direct : Option (List String)
  origin_dns : List OriginDnsBlock
  origin_port : Int
  tls : Option String
  ip_firewall : Option Bool
  proxy_protocol : Option Bool

/-- The state a configuration block yields before the resource exists: the schema
defaults (`Default: cloudflareOff`, `Default: true`, `Default: false`) fill the
optional attributes the user left out, the computed attributes are empty. -/
def Config.toResourceData (c : Config) : ResourceData :=
  { id := "", zone_id := c.zone_id, protocol := c.protocol, dns := c.dns,
    origin_direct := c.origin_direct.getD [], origin_dns := c.origin_dns,
    origin_port := c.origin_port, tls := c.tls.getD cloudflareOff,
    ip_firewall := c.ip_firewall.getD true, proxy_protocol := c.proxy_protocol.getD false,
    created_on := "", modified_on := "" }

/-- The dynamic value of a `dns` element: a map with the keys `type` and `name`. -/
def DnsBlock.toValue (b : DnsBlock) : GoValue :=
  .map [("type", .str b.typ), ("name", .str b.name)]

/-- The dynamic value of an `origin_dns` element: a map with the key `name`. -/
def OriginDnsBlock.toValue (b : OriginDnsBlock) : GoValue :=
  .map [("name", .str b.name)]

/-- The call `d.Get(key)`: the attribute as a dynamic value. A `TypeString` attribute
is a `string`, `TypeInt` an `int`, `TypeBool` a `bool`, and a `TypeList` attribute
is a slice `[]interface{}` (never a `*schema.Set`, which is what `TypeSet` gives). -/
def ResourceData.Get (d : ResourceData) (key : String) : GoValue :=
  if key = "zone_id" then .str d.zone_id
  else if key = "protocol" then .str d.protocol
  else if key = "dns" then .slice (d.dns.map DnsBlock.toValue)
  else if key = "origin_direct" then .slice (d.origin_direct.map GoValue.str)
  else if key = "origin_dns" then .slice (d.origin_dns.map OriginDnsBlock.toValue)
  else if key = "origin_port" then .int d.origin_port
  else if key = "tls" then .str d.tls
  else if key = "ip_firewall" then .bool d.ip_firewall
  else if key = "proxy_protocol" then .bool d.proxy_protocol
  else if key = "created_on" then .str d.created_on
  else if key = "modified_on" then .str d.modified_on
  else .nil

/-- Whether a dynamic value is the zero value of its type: the empty string, `0`,
`false`, an empty list, an empty map or set, nil. -/
def GoValue.isZero (v : GoValue) : Bool :=
  match v with
  | .nil => true
  | .str s => s == ""
  | .int n => n == 0
  | .bool b => !b
  | .slice xs => xs.isEmpty
  | .map kvs => kvs.isEmpty
  | .set xs => xs.isEmpty

/-- The call `d.GetOk(key)`: the value of `d.Get(key)` and whether it is set to
something other than the zero value of its type. -/
def ResourceData.GetOk (d : ResourceData) (key : String) : GoValue × Bool :=
  (d.Get key, !(d.Get key).isZero)

/-- The call `d.SetId(v)`. -/
def ResourceData.SetId (d : ResourceData) (v : String) : ResourceData :=
  { d with id := v }

/-- Reads a dynamic value as a `dns` element, when it has that shape. -/
def DnsBlock.ofValue (v : GoValue) : Option DnsBlock :=
  match v with
  | .map kvs =>
    match mapIndex kvs "type", mapIndex kvs "name" with
    | .str t, .str n => some { typ := t, name := n }
    | _, _ => none
  | _ => none

/-- Reads a dynamic value as an `origin_dns` element, when it has that shape. -/
def OriginDnsBlock.ofValue (v : GoValue) : Option OriginDnsBlock :=
  match v with
  | .map kvs =>
    match mapIndex kvs "name" with
    | .str n => some { name := n }
    | _ => none
  | _ => none

/-- Reads a dynamic value as a string, when it is one. -/
def stringOfValue (v : GoValue) : Option String :=
  match v with
  | .str s => some s
  | _ => none

/-- Applies `f` to every element of a list; `none` as soon as one element gives `none`. -/
def mapOption {α β : Type} (f : α → Option β) : List α → Option (List β)
  | [] => some []
  | x :: xs =>
    match f x with
    | none => none
    | some y => (mapOption f xs).map (y :: ·)

/-- The call `d.Set(key, value)`: `some` of the new state when the value has the
type the schema declares for the attribute, `none` (an error, the state kept) when
it has not or the attribute does not exist. -/
def ResourceData.Set (d : ResourceData) (key : String) (value : GoValue) : Option ResourceData :=
  if key = "zone_id" then
    match value with | .str s => some { d with zone_id := s } | _ => none
  else if key = "protocol" then
    match value with | .str s => some { d with protocol := s } | _ => none
  else if key = "dns" then
    match value with
    | .slice xs => (mapOption DnsBlock.ofValue xs).map (fun bs => { d with dns := bs })
    | _ => none
  else if key = "origin_direct" then
    match value with
    | .slice xs => (mapOption stringOfValue xs).map (fun ss => { d with origin_direct := ss })
    | _ => none
  else if key = "origin_dns" then
    match value with
    | .slice xs => (mapOption OriginDnsBlock.ofValue xs).map (fun bs => { d with origin_dns := bs })
    | _ => none
  else if key = "origin_port" then
    match value with | .int n => some { d with origin_port := n } | _ => none
  else if key = "tls" then
    match value with | .str s => some { d with tls := s } | _ => none
  else if key = "ip_firewall" then
    match value with | .bool b => some { d with ip_firewall := b } | _ => none
  else if key = "proxy_protocol" then
    match value with | .bool b => some { d with proxy_protocol := b } | _ => none
  else if key = "created_on" then
    match value with | .str s => some { d with created_on := s } | _ => none
  else if key = "modified_on" then
    match value with | .str s => some { d with modified_on := s } | _ => none
  else none

/-- A `d.Set(key, value)` whose error is dropped or only logged: the state after
the call, which is the state before it when the call fails. -/
def ResourceData.SetLogged (d : ResourceData) (key : String) (value : GoValue) : ResourceData :=
  (d.Set key value).getD d

/-! ## Expand and flatten -/

/-- The function `expandDns`. -/
def expandDns (d : GoValue) : Except GoPanic SpectrumApplicationDNS := do
  let cfg ← assertSetList d
  let m ← (index0 cfg >>= assertMap)
  let t ← assertString (mapIndex m "type")
  let n ← assertString (mapIndex m "name")
  return { Typ := t, Name := n }

/-- The function `expandOriginDns`; the result is a non-nil pointer. -/
def expandOriginDns (d : GoValue) : Except GoPanic SpectrumApplicationOriginDNS := do
  let cfg ← assertSetList d
  let m ← (index0 cfg >>= assertMap)
  let n ← assertString (mapIndex m "name")
  return { Name := n }

/-- The function `flattenDns`. -/
def flattenDns (dns : SpectrumApplicationDNS) : GoValue :=
  .slice [.map [("type", .str dns.Typ), ("name", .str dns.Name)]]

/-- The function `flattenOriginDns`: the argument is a pointer, and reading
`dns.Name` through a nil pointer panics. -/
def flattenOriginDns (dns : Option SpectrumApplicationOriginDNS) : Except GoPanic GoValue :=
  match dns with
  | none => .error .nilPointerDereference
  | some p => .ok (.slice [.map [("name", .str p.Name)]])

/-- Modelled from the spec: the helper `expandInterfaceToStringList` is defined in
another file of the repository; by the data model (`origin_direct` is an ordered
list of strings) it turns a list of dynamic values into the list of strings, in
the same order. -/
def expandInterfaceToStringList (list : GoValue) : Except GoPanic (List String) := do
  let ifaceList ← assertSlice list
  ifaceList.mapM assertString

/-- The function `applicationFromResource`. The struct literal evaluates
`d.Get("protocol").(string)` and then `expandDns(d.Get("dns"))`; every later field
is assigned only when `d.GetOk` reports it set. -/
def applicationFromResource (d : ResourceData) : Except GoPanic SpectrumApplication := do
  let protocol ← assertString (d.Get "protocol")
  let dns ← expandDns (d.Get "dns")
  let application : SpectrumApplication :=
    { application0 with Protocol := protocol, DNS := dns }
  let application ←
    if (d.GetOk "origin_direct").2 then do
      let s ← assertString (d.GetOk "origin_direct").1
      let l ← expandInterfaceToStringList (.str s)
      pure { application with OriginDirect := l }
    else pure application
  let application ←
    if (d.GetOk "origin_dns").2 then do
      let p ← expandOriginDns (d.GetOk "origin_dns").1
      pure { application with OriginDNS := some p }
    else pure application
  let application ←
    if (d.GetOk "origin_port").2 then do
      let n ← assertInt (d.GetOk "origin_port").1
      pure { application with OriginPort := n }
    else pure application
  let application ←
    if (d.GetOk "tls").2 then do
      let s ← assertString (d.GetOk "tls").1
      pure { application with TLS := s }
    else pure application
  let application ←
    if (d.GetOk "ip_firewall").2 then do
      let b ← assertBool (d.GetOk "ip_firewall").1
      pure { application with IPFirewall := b }
    else pure application
  let application ←
    if (d.GetOk "proxy_protocol").2 then do
      let b ← assertBool (d.GetOk "proxy_protocol").1
      pure { application with ProxyProtocol := b }
    else pure application
  return application

/-! ## Library functions of package `strings` -/

/-- The function `strings.Index` on character lists: the position of the first
occurrence of `sep`, `none` when there is none (Go returns `-1`). -/
def indexChars (sep : List Char) : List Char → Option Nat
  | [] => if sep.isEmpty then some 0 else none
  | c :: cs =>
    if sep.isPrefixOf (c :: cs) then some 0 else (indexChars sep cs).map (· + 1)

/-- The function `strings.Contains(s, substr)`, which is `Index(s, substr) >= 0`. -/
def stringsContains (s substr : String) : Bool :=
  (indexChars substr.data s.data).isSome

/-- The loop of `strings.SplitN` for a non-empty separator: at most `k` cuts, each at
the first occurrence of `sep`, and the unsplit remainder as the last piece. -/
def splitLoop (sep : List Char) : Nat → List Char → List (List Char)
  | 0, s => [s]
  | k + 1, s =>
    match indexChars sep s with
    | none => [s]
    | some m => s.take m :: splitLoop sep k (s.drop (m + sep.length))

/-- The loop of `strings.SplitN` for the empty separator: `k` pieces of one
character each, then the remainder. -/
def explodeLoop : Nat → List Char → List (List Char)
  | 0, s => [s]
  | _ + 1, [] => [[]]
  | k + 1, c :: cs => [c] :: explodeLoop k cs

/-- The function `strings.SplitN(s, sep, n)` for `n ≥ 0` (the handler calls it with
`n = 2`): no piece for `n = 0`, otherwise at most `n` pieces, and never more than
`len(s) + 1` of them (`len` counts bytes). -/
def stringsSplitN (s sep : String) (n : Nat) : List String :=
  if n = 0 then []
  else if sep = "" then
    let m := if n > s.length then s.length else n
    if m = 0 then [] else (explodeLoop (m - 1) s.data).map String.mk
  else
    let m := if n > s.utf8ByteSize + 1 then s.utf8ByteSize + 1 else n
    (splitLoop sep.data (m - 1) s.data).map String.mk

/-! ## The remote API client and the operations -/

/-- An error value returned by the handler: where it was made, and from what. -/
inductive GoError where
  /-- An error made by `fmt.Errorf(format, args...)`. -/
  | errorf (format : String) (args : List String)
  /-- An error made by `errors.Wrap(cause, message)`, the message being
  `fmt.Sprintf(format, args...)`; `cause` is the text of the wrapped error. -/
  | wrap (cause : String) (format : String) (args : List String)
  deriving DecidableEq, Repr

/-- A call to the remote API, with its arguments. -/
inductive Call where
  | createSpectrumApplication (zoneID : String) (request : SpectrumApplication)
  | updateSpectrumApplication (zoneID : String) (applicationID : String)
      (request : SpectrumApplication)
  | spectrumApplication (zoneID : String) (applicationID : String)
  | deleteSpectrumApplication (zoneID : String) (applicationID : String)
  | zoneIDByName (zoneName : String)
  deriving DecidableEq, Repr

/-- The remote API client (`*cloudflare.API`), as the five calls the handler makes.
An error is given by its text (`err.Error()`). -/
structure API where
  CreateSpectrumApplication : String → SpectrumApplication → Except String SpectrumApplication
  UpdateSpectrumApplication :
    String → String → SpectrumApplication → Except String SpectrumApplication
  DeleteSpectrumApplication : String → String → Option String
  ZoneIDByName : String → Except String String
  SpectrumApplication : String → String → Except String SpectrumApp.SpectrumApplication

/-- How a CRUD operation ends. -/
inductive Outcome where
  /-- The operation returned `nil`. -/
  | ok
  /-- The operation returned an error. -/
  | failed (e : GoError)
  /-- The operation did not return: it panicked. -/
  | panicked (p : GoPanic)
  deriving DecidableEq, Repr

/-- What a CRUD operation leaves behind: how it ended, the local state, and the
remote calls it made, in order. -/
structure Result where
  outcome : Outcome
  state : ResourceData
  calls : List Call
  deriving DecidableEq, Repr

/-- The pointer method call `t.Format(time.RFC3339Nano)` on a `*time.Time`. -/
def formatTime (timeFormat : Time → String) (t : Option Time) : Except GoPanic String :=
  match t with
  | none => .error .nilPointerDereference
  | some v => .ok (timeFormat v)

/-- The part of `resourceCloudflareSpectrumAppRead` after a successful remote call:
the `d.Set` calls, in the order of the source. -/
def readApplication (timeFormat : Time → String) (application : SpectrumApplication)
    (d : ResourceData) : Outcome × ResourceData :=
  let d := d.SetLogged "protocol" (.str application.Protocol)
  let d := d.SetLogged "dns" (flattenDns application.DNS)
  let d := d.SetLogged "origin_direct" (.slice (application.OriginDirect.map GoValue.str))
  match flattenOriginDns application.OriginDNS with
  | .error p => (.panicked p, d)
  | .ok originDns =>
    let d := d.SetLogged "origin_dns" originDns
    let d := d.SetLogged "origin_port" (.int application.OriginPort)
    let d := d.SetLogged "tls" (.str application.TLS)
    let d := d.SetLogged "ip_firewall" (.bool application.IPFirewall)
    let d := d.SetLogged "proxy_protocol" (.bool application.ProxyProtocol)
    match formatTime timeFormat application.CreatedOn with
    | .error p => (.panicked p, d)
    | .ok createdOn =>
      let d := d.SetLogged "created_on" (.str createdOn)
      match formatTime timeFormat application.ModifiedOn with
      | .error p => (.panicked p, d)
      | .ok modifiedOn =>
        let d := d.SetLogged "modified_on" (.str modifiedOn)
        (.ok, d)

/-- The function `resourceCloudflareSpectrumAppRead`; `timeFormat` is
`Format(time.RFC3339Nano)`. -/
def resourceCloudflareSpectrumAppRead (timeFormat : Time → String) (client : API)
    (d : ResourceData) : Result :=
  match assertString (d.Get "zone_id") with
  | .error p => ⟨.panicked p, d, []⟩
  | .ok zoneID =>
    let applicationID := d.id
    let calls := [Call.spectrumApplication zoneID applicationID]
    match client.SpectrumApplication zoneID applicationID with
    | .error err =>
      if stringsContains err "HTTP status 404" then
        ⟨.ok, d.SetId "", calls⟩
      else
        ⟨.failed (.wrap err
          "Error reading spectrum application resource from API for resource %s in zone %s"
          [zoneID, applicationID]), d, calls⟩
    | .ok application =>
      let r := readApplication timeFormat application d
      ⟨r.1, r.2, calls⟩

/-- The part of `resourceCloudflareSpectrumAppCreate` after the request is built. -/
def createApplication (timeFormat : Time → String) (client : API)
    (newSpectrumApp : SpectrumApplication) (d : ResourceData) : Result :=
  match assertString (d.Get "zone_id") with
  | .error p => ⟨.panicked p, d, []⟩
  | .ok zoneID =>
    let calls := [Call.createSpectrumApplication zoneID newSpectrumApp]
    match client.CreateSpectrumApplication zoneID newSpectrumApp with
    | .error err =>
      ⟨.failed (.wrap err "error creating spectrum application for zone" []), d, calls⟩
    | .ok r =>
      if r.ID = "" then
        ⟨.failed (.errorf "failed to find id in Create response; resource was empty" []),
          d, calls⟩
      else
        let res := resourceCloudflareSpectrumAppRead timeFormat client (d.SetId r.ID)
        ⟨res.outcome, res.state, calls ++ res.calls⟩

/-- The function `resourceCloudflareSpectrumAppCreate`. -/
def resourceCloudflareSpectrumAppCreate (timeFormat : Time → String) (client : API)
    (d : ResourceData) : Result :=
  match applicationFromResource d with
  | .error p => ⟨.panicked p, d, []⟩
  | .ok newSpectrumApp => createApplication timeFormat client newSpectrumApp d

/-- The part of `resourceCloudflareSpectrumAppUpdate` after the request is built:
the remote call is addressed to `application.ID`. -/
def updateApplication (timeFormat : Time → String) (client : API)
    (zoneID : String) (application : SpectrumApplication) (d : ResourceData) : Result :=
  let calls := [Call.updateSpectrumApplication zoneID application.ID application]
  match client.UpdateSpectrumApplication zoneID application.ID application with
  | .error err =>
    ⟨.failed (.wrap err "error creating spectrum application for zone" []), d, calls⟩
  | .ok _ =>
    let res := resourceCloudflareSpectrumAppRead timeFormat client d
    ⟨res.outcome, res.state, calls ++ res.calls⟩

/-- The function `resourceCloudflareSpectrumAppUpdate`. -/
def resourceCloudflareSpectrumAppUpdate (timeFormat : Time → String) (client : API)
    (d : ResourceData) : Result :=
  match assertString (d.Get "zone_id") with
  | .error p => ⟨.panicked p, d, []⟩
  | .ok zoneID =>
    match applicationFromResource d with
    | .error p => ⟨.panicked p, d, []⟩
    | .ok application => updateApplication timeFormat client zoneID application d

/-- The function `resourceCloudflareSpectrumAppDelete`. -/
def resourceCloudflareSpectrumAppDelete (client : API) (d : ResourceData) : Result :=
  match assertString (d.Get "zone_id") with
  | .error p => ⟨.panicked p, d, []⟩
  | .ok zoneID =>
    let applicationID := d.id
    let calls := [Call.deleteSpectrumApplication zoneID applicationID]
    match client.DeleteSpectrumApplication zoneID applicationID with
    | some err =>
      ⟨.failed (.errorf "error deleting Cloudflare Spectrum Application: %s" [err]), d, calls⟩
    | none => ⟨.ok, d, calls⟩

/-- What the importer returns: the list of states or the error, and the remote
calls it made. -/
structure ImportResult where
  result : Except GoError (List ResourceData)
  calls : List Call

/-- The function `resourceCloudflareSpectrumAppImport`. -/
def resourceCloudflareSpectrumAppImport (client : API) (d : ResourceData) : ImportResult :=
  match stringsSplitN d.id "/" 2 with
  | [zoneName, applicationID] =>
    let calls := [Call.zoneIDByName zoneName]
    match client.ZoneIDByName zoneName with
    | .error err =>
      ⟨.error (.errorf "error finding zoneName %q: %s" [zoneName, err]), calls⟩
    | .ok zoneID =>
      let d := d.SetLogged "zone_id" (.str zoneID)
      let d := d.SetId applicationID
      ⟨.ok [d], calls⟩
  | _ =>
    ⟨.error (.errorf
      "invalid id (\"%s\") specified, should be in format \"zoneName/applicationID\""
      [d.id]), []⟩

/-! ## Concrete inputs -/

/-- The configuration of `testAccCheckCloudflareSpectrumApplicationConfigBasic`, for
the zone `zoneID`; `origin_dns` and `origin_port` are not given. -/
def configBasic (zoneID : String) : Config :=
  { zone_id := zoneID, protocol := "tcp/22",
    dns := [{ typ := "CNAME", name := "ssh.example.com" }],
    origin_direct := some ["tcp://120.120.102.10:23"],
    origin_dns := [], origin_port := 0,
    tls := none, ip_firewall := none, proxy_protocol := none }

/-- A remote whose get-application call answers every request with a not-found error. -/
def clientGone : API :=
  { CreateSpectrumApplication := fun _ r => .ok r
    UpdateSpectrumApplication := fun _ _ r => .ok r
    DeleteSpectrumApplication := fun _ _ => none
    ZoneIDByName := fun _ => .ok "023e105f4ecef8ad9ca31a8372d0c353"
    SpectrumApplication := fun _ _ => .error "error from makeRequest: HTTP status 404: not found" }

/-- A state of the basic test configuration after creation, with identifier `app1`. -/
def stateBasic : ResourceData :=
  { (configBasic "zone1").toResourceData with id := "app1" }

/-- A remote whose zone lookup knows the zone `zone.example.com`. -/
def clientZone : API :=
  { CreateSpectrumApplication := fun _ r => .ok r
    UpdateSpectrumApplication := fun _ _ r => .ok r
    DeleteSpectrumApplication := fun _ _ => none
    ZoneIDByName := fun n =>
      if n = "zone.example.com" then .ok "023e105f4ecef8ad9ca31a8372d0c353"
      else .error "zone could not be found"
    SpectrumApplication := fun _ _ => .error "HTTP status 404" }

/-- The state the importer is handed: only the identifier is filled in. -/
def importState (id : String) : ResourceData :=
  { id := id, zone_id := "", protocol := "", dns := [], origin_direct := [],
    origin_dns := [], origin_port := 0, tls := "", ip_firewall := false,
    proxy_protocol := false, created_on := "", modified_on := "" }

/-- The remote application of the basic test configuration: created with
`origin_direct` only, so its `origin_dns` pointer is nil. -/
def appDirect : SpectrumApplication :=
  { ID := "app1", Protocol := "tcp/22",
    DNS := { Typ := "CNAME", Name := "ssh.example.com" },
    OriginDirect := ["tcp://120.120.102.10:23"], OriginPort := 0, OriginDNS := none,
    IPFirewall := false, ProxyProtocol := true, TLS := "on",
    CreatedOn := some ⟨1541289600000000000⟩, ModifiedOn := some ⟨1541289600000000000⟩ }

/-- A remote that holds `appDirect` under the identifier `app1`, answers any other
identifier with a not-found error, and whose create call returns an empty identifier. -/
def clientDirect : API :=
  { CreateSpectrumApplication := fun _ r => .ok { r with ID := "" }
    UpdateSpectrumApplication := fun _ _ r => .ok r
    DeleteSpectrumApplication := fun _ _ => none
    ZoneIDByName := fun _ => .ok "zone1"
    SpectrumApplication := fun _ i =>
      if i = "app1" then .ok appDirect else .error "HTTP status 404" }

/-- A remote that answers the identifier `app1` with a not-found error and the empty
identifier, which addresses the collection and not one application, with another error. -/
def clientGoneThenOther : API :=
  { CreateSpectrumApplication := fun _ r => .ok r
    UpdateSpectrumApplication := fun _ _ r => .ok r
    DeleteSpectrumApplication := fun _ _ => none
    ZoneIDByName := fun _ => .ok "zone1"
    SpectrumApplication := fun _ i =>
      if i = "" then .error "error unmarshalling the JSON response"
      else .error "HTTP status 404" }

/-- A stand-in for `Format(time.RFC3339Nano)` on concrete inputs. -/
def timeFormat0 (t : Time) : String := toString t.unixNano

/-! ## Lemmas on the library functions -/

theorem indexChars_slash_none (s : List Char) (h : '/' ∉ s) : indexChars ['/'] s = none := by
  induction s with
  | nil => simp [indexChars]
  | cons c cs ih =>
    have hc : ¬ ('/' = c) := fun e => h (List.mem_cons.2 (Or.inl e))
    have hcs : '/' ∉ cs := fun e => h (List.mem_cons.2 (Or.inr e))
    simp [indexChars, List.isPrefixOf, hc, ih hcs]

theorem indexChars_slash_first (zn rest : List Char) (h : '/' ∉ zn) :
    indexChars ['/'] (zn ++ '/' :: rest) = some zn.length := by
  induction zn with
  | nil => simp [indexChars, List.isPrefixOf]
  | cons c cs ih =>
    have hc : ¬ ('/' = c) := fun e => h (List.mem_cons.2 (Or.inl e))
    have hcs : '/' ∉ cs := fun e => h (List.mem_cons.2 (Or.inr e))
    simp [indexChars, List.isPrefixOf, hc, ih hcs]

theorem stringsSplitN_no_slash (s : String) (h : '/' ∉ s.data) :
    stringsSplitN s "/" 2 = [s] := by
  have hsep : ("/" : String) ≠ "" := by decide
  have hd : ("/" : String).data = ['/'] := rfl
  have hl : ∀ k, splitLoop ['/'] k s.data = [s.data] := by
    intro k
    cases k <;> simp [splitLoop, indexChars_slash_none _ h]
  simp [stringsSplitN, hsep, hd, hl]

theorem stringsSplitN_slash (zn rest : List Char) (h : '/' ∉ zn) :
    stringsSplitN ⟨zn ++ '/' :: rest⟩ "/" 2 = [⟨zn⟩, ⟨rest⟩] := by
  have hsep : ("/" : String) ≠ "" := by decide
  have hd : ("/" : String).data = ['/'] := rfl
  have hpos : 0 < String.utf8Len (zn ++ '/' :: rest) := by
    simp only [String.utf8Len_append, String.utf8Len_cons]
    have := Char.utf8Size_pos '/'
    omega
  have hm : ¬ (2 > String.utf8Len (zn ++ '/' :: rest) + 1) := by omega
  simp [stringsSplitN, hsep, hd, hm, splitLoop, indexChars_slash_first _ _ h]

theorem exists_first_slash (s : List Char) (h : '/' ∈ s) :
    ∃ zn rest, s = zn ++ '/' :: rest ∧ '/' ∉ zn := by
  induction s with
  | nil => simp at h
  | cons c cs ih =>
    by_cases hc : c = '/'
    · exact ⟨[], cs, by simp [hc], by simp⟩
    · have hcs : '/' ∈ cs := by
        rcases List.mem_cons.1 h with e | e
        · exact absurd e.symm hc
        · exact e
      obtain ⟨zn, rest, e, hn⟩ := ih hcs
      refine ⟨c :: zn, rest, by simp [e], ?_⟩
      intro hmem
      rcases List.mem_cons.1 hmem with e2 | e2
      · exact hc e2.symm
      · exact hn e2

theorem mapOption_stringOfValue (l : List String) :
    mapOption stringOfValue (l.map GoValue.str) = some l := by
  induction l with
  | nil => rfl
  | cons x xs ih => simp [mapOption, ih, stringOfValue]

theorem setLogged_protocol (d : ResourceData) (s : String) :
    d.SetLogged "protocol" (.str s) = { d with protocol := s } := by
  simp [ResourceData.SetLogged, ResourceData.Set]

theorem setLogged_dns (d : ResourceData) (x : SpectrumApplicationDNS) :
    d.SetLogged "dns" (flattenDns x) = { d with dns := [{ typ := x.Typ, name := x.Name }] } := by
  simp [ResourceData.SetLogged, ResourceData.Set, flattenDns, DnsBlock.ofValue, mapIndex, mapOption,
    List.lookup]

theorem setLogged_origin_direct (d : ResourceData) (l : List String) :
    d.SetLogged "origin_direct" (.slice (l.map GoValue.str)) = { d with origin_direct := l } := by
  simp [ResourceData.SetLogged, ResourceData.Set, mapOption_stringOfValue]

theorem setLogged_origin_dns (d : ResourceData) (n : String) :
    d.SetLogged "origin_dns" (.slice [.map [("name", .str n)]]) =
      { d with origin_dns := [{ name := n }] } := by
  simp [ResourceData.SetLogged, ResourceData.Set, OriginDnsBlock.ofValue, mapIndex, mapOption, List.lookup]

theorem setLogged_origin_port (d : ResourceData) (n : Int) :
    d.SetLogged "origin_port" (.int n) = { d with origin_port := n } := by
  simp [ResourceData.SetLogged, ResourceData.Set]

theorem setLogged_tls (d : ResourceData) (s : String) :
    d.SetLogged "tls" (.str s) = { d with tls := s } := by
  simp [ResourceData.SetLogged, ResourceData.Set]

theorem setLogged_ip_firewall (d : ResourceData) (b : Bool) :
    d.SetLogged "ip_firewall" (.bool b) = { d with ip_firewall := b } := by
  simp [ResourceData.SetLogged, ResourceData.Set]

theorem setLogged_proxy_protocol (d : ResourceData) (b : Bool) :
    d.SetLogged "proxy_protocol" (.bool b) = { d with proxy_protocol := b } := by
  simp [ResourceData.SetLogged, ResourceData.Set]

theorem setLogged_created_on (d : ResourceData) (s : String) :
    d.SetLogged "created_on" (.str s) = { d with created_on := s } := by
  simp [ResourceData.SetLogged, ResourceData.Set]

theorem setLogged_modified_on (d : ResourceData) (s : String) :
    d.SetLogged "modified_on" (.str s) = { d with modified_on := s } := by
  simp [ResourceData.SetLogged, ResourceData.Set]

/-- After a successful remote call with all three pointers set, the read overwrites
every attribute but `zone_id` from the remote application and keeps the identifier. -/
theorem readApplication_of_pointers (timeFormat : Time → String) (a : SpectrumApplication)
    (d : ResourceData) (o : SpectrumApplicationOriginDNS) (c m : Time)
    (ho : a.OriginDNS = some o) (hc : a.CreatedOn = some c) (hm : a.ModifiedOn = some m) :
    readApplication timeFormat a d =
      (.ok, { id := d.id, zone_id := d.zone_id, protocol := a.Protocol,
              dns := [{ typ := a.DNS.Typ, name := a.DNS.Name }],
              origin_direct := a.OriginDirect, origin_dns := [{ name := o.Name }],
              origin_port := a.OriginPort, tls := a.TLS, ip_firewall := a.IPFirewall,
              proxy_protocol := a.ProxyProtocol, created_on := timeFormat c,
              modified_on := timeFormat m }) := by
  simp [readApplication, ho, hc, hm, flattenOriginDns, formatTime, setLogged_protocol,
    setLogged_dns, setLogged_origin_direct, setLogged_origin_dns, setLogged_origin_port,
    setLogged_tls, setLogged_ip_firewall, setLogged_proxy_protocol, setLogged_created_on,
    setLogged_modified_on]

/-- The read after a successful remote call never changes the identifier or `zone_id`. -/
theorem readApplication_frame (timeFormat : Time → String) (a : SpectrumApplication)
    (d : ResourceData) :
    (readApplication timeFormat a d).2.id = d.id ∧
      (readApplication timeFormat a d).2.zone_id = d.zone_id := by
  rcases ho : a.OriginDNS with _ | o <;> rcases hc : a.CreatedOn with _ | c <;>
    rcases hm : a.ModifiedOn with _ | m <;>
    simp [readApplication, ho, hc, hm, flattenOriginDns, formatTime, setLogged_protocol,
      setLogged_dns, setLogged_origin_direct, setLogged_origin_dns, setLogged_origin_port,
      setLogged_tls, setLogged_ip_firewall, setLogged_proxy_protocol, setLogged_created_on,
      setLogged_modified_on]

/-- Reading the same remote application a second time changes nothing, also when the
read panics part-way. -/
theorem readApplication_idem (timeFormat : Time → String) (a : SpectrumApplication)
    (d : ResourceData) :
    readApplication timeFormat a (readApplication timeFormat a d).2 =
      readApplication timeFormat a d := by
  rcases ho : a.OriginDNS with _ | o <;> rcases hc : a.CreatedOn with _ | c <;>
    rcases hm : a.ModifiedOn with _ | m <;>
    simp [readApplication, ho, hc, hm, flattenOriginDns, formatTime, setLogged_protocol,
      setLogged_dns, setLogged_origin_direct, setLogged_origin_dns, setLogged_origin_port,
      setLogged_tls, setLogged_ip_firewall, setLogged_proxy_protocol, setLogged_created_on,
      setLogged_modified_on]

/-! ## Read -/

/-- C1. Read, not found: when the remote get-application call fails with an error whose
text contains "HTTP status 404", `resourceCloudflareSpectrumAppRead` returns success,
and the state it leaves is the input state with the identifier set to the empty string
and every other field unchanged; the one remote call made is that get. -/
theorem read_not_found (timeFormat : Time → String) (client : API) (d : ResourceData)
    (err : String) (hcall : client.SpectrumApplication d.zone_id d.id = .error err)
    (h404 : stringsContains err "HTTP status 404" = true) :
    resourceCloudflareSpectrumAppRead timeFormat client d =
      ⟨.ok, { d with id := "" }, [Call.spectrumApplication d.zone_id d.id]⟩ := by
  simp [resourceCloudflareSpectrumAppRead, ResourceData.Get, assertString, hcall, h404,
    ResourceData.SetId]

/-- Witness of C1: the basic test state read against a remote that reports not-found. -/
theorem read_not_found_witness :
    stringsContains "error from makeRequest: HTTP status 404: not found" "HTTP status 404" = true ∧
    resourceCloudflareSpectrumAppRead (fun _ => "") clientGone stateBasic =
      ⟨.ok, { stateBasic with id := "" }, [Call.spectrumApplication "zone1" "app1"]⟩ :=
  ⟨by decide, read_not_found (fun _ => "") clientGone stateBasic
    "error from makeRequest: HTTP status 404: not found" rfl (by decide)⟩

/-! ## Import -/

/-- C4. Import, success: for an identifier `zoneName ++ "/" ++ rest` where `zoneName`
has no "/" (`rest` may have some) and a zone lookup that maps `zoneName` to `z`,
`resourceCloudflareSpectrumAppImport` succeeds with exactly one state, which is the
input state with `zone_id = z` and identifier `rest`, every other field as it was. -/
theorem import_success (client : API) (d : ResourceData) (zoneName rest z : String)
    (hid : d.id = zoneName ++ "/" ++ rest) (hzone : '/' ∉ zoneName.data)
    (hlookup : client.ZoneIDByName zoneName = .ok z) :
    (resourceCloudflareSpectrumAppImport client d).result =
      .ok [{ d with zone_id := z, id := rest }] := by
  have hs : d.id = ⟨zoneName.data ++ '/' :: rest.data⟩ := by
    rw [hid]
    apply String.ext
    simp [String.data_append]
  have hsplit := stringsSplitN_slash zoneName.data rest.data hzone
  rw [← hs] at hsplit
  simp [resourceCloudflareSpectrumAppImport, hsplit, hlookup, ResourceData.SetLogged,
    ResourceData.Set, ResourceData.SetId]

/-- Witness of C4: `zone.example.com/abc123` gives the identifier `abc123`. -/
theorem import_success_witness :
    (resourceCloudflareSpectrumAppImport clientZone (importState "zone.example.com/abc123")).result =
      .ok [{ importState "zone.example.com/abc123" with
              zone_id := "023e105f4ecef8ad9ca31a8372d0c353", id := "abc123" }] :=
  import_success clientZone (importState "zone.example.com/abc123") "zone.example.com" "abc123"
    "023e105f4ecef8ad9ca31a8372d0c353" rfl (by decide) rfl

/-- C5. Import, malformed identifier: `resourceCloudflareSpectrumAppImport` fails with
the format error without having made any remote call (so without a zone lookup, and
with no state returned) if and only if the identifier contains no "/". -/
theorem import_malformed_iff (client : API) (d : ResourceData) :
    ((resourceCloudflareSpectrumAppImport client d).result =
        .error (.errorf
          "invalid id (\"%s\") specified, should be in format \"zoneName/applicationID\""
          [d.id]) ∧
      (resourceCloudflareSpectrumAppImport client d).calls = []) ↔
    '/' ∉ d.id.data := by
  constructor
  · intro h hmem
    obtain ⟨zn, rest, e, hn⟩ := exists_first_slash d.id.data hmem
    have hs : d.id = ⟨zn ++ '/' :: rest⟩ := String.ext e
    have hsplit := stringsSplitN_slash zn rest hn
    rw [← hs] at hsplit
    have hc := h.2
    simp only [resourceCloudflareSpectrumAppImport, hsplit] at hc
    cases hz : client.ZoneIDByName ⟨zn⟩ <;> simp [hz] at hc
  · intro h
    simp [resourceCloudflareSpectrumAppImport, stringsSplitN_no_slash _ h]

/-- The identifier `onlyonepart` is refused with the format error, no remote call made. -/
theorem import_onlyonepart :
    (resourceCloudflareSpectrumAppImport clientZone (importState "onlyonepart")).result =
        .error (.errorf
          "invalid id (\"%s\") specified, should be in format \"zoneName/applicationID\""
          ["onlyonepart"]) ∧
      (resourceCloudflareSpectrumAppImport clientZone (importState "onlyonepart")).calls = [] :=
  ⟨rfl, rfl⟩

/-! ## Claims settled against the request builder -/

/-- The request builder panics on every state: `d.Get("dns")` is a slice, and
`expandDns` asserts a `*schema.Set`. -/
theorem applicationFromResource_panics (d : ResourceData) :
    applicationFromResource d = .error (.interfaceConversion "*schema.Set") := by
  simp [applicationFromResource, ResourceData.Get, assertString, expandDns, assertSetList,
    bind, Except.bind]

/-- Past the request builder, a create response with an empty identifier is refused with
the "resource was empty" error: one remote call (the create), no get, state unchanged. -/
theorem createApplication_empty_id (timeFormat : Time → String) (client : API)
    (app r : SpectrumApplication) (d : ResourceData)
    (hcall : client.CreateSpectrumApplication d.zone_id app = .ok r) (hid : r.ID = "") :
    createApplication timeFormat client app d =
      ⟨.failed (.errorf "failed to find id in Create response; resource was empty" []), d,
        [Call.createSpectrumApplication d.zone_id app]⟩ := by
  simp [createApplication, ResourceData.Get, assertString, hcall, hid]

/-- Past the request builder, the update call is addressed to the identifier inside the
request, whatever the local identifier is. -/
theorem updateApplication_first_call (timeFormat : Time → String) (client : API)
    (zoneID : String) (app : SpectrumApplication) (d : ResourceData) :
    (updateApplication timeFormat client zoneID app d).calls.head? =
      some (Call.updateSpectrumApplication zoneID app.ID app) := by
  unfold updateApplication
  cases client.UpdateSpectrumApplication zoneID app.ID app <;> simp

/-- C2 (code evaluated at the failing input). Update of the basic test state, whose
identifier is `app1`: the operation panics in the request builder and makes no remote
call at all, so no update call addressed to `app1`. -/
theorem update_calls_nothing :
    resourceCloudflareSpectrumAppUpdate timeFormat0 clientDirect stateBasic =
      ⟨.panicked (.interfaceConversion "*schema.Set"), stateBasic, []⟩ := by
  decide

/-- C3 (code evaluated at the failing input). Create of the basic test configuration
against a remote whose create call returns an empty identifier: the operation does not
return an error, it panics in the request builder before the create call is made. -/
theorem create_panics_before_call :
    resourceCloudflareSpectrumAppCreate timeFormat0 clientDirect
        (configBasic "zone1").toResourceData =
      ⟨.panicked (.interfaceConversion "*schema.Set"), (configBasic "zone1").toResourceData, []⟩ := by
  decide

/-- C6 (code evaluated at the failing input). On the `dns` and `origin_dns` values
that `d.Get` gives for a declared configuration (single-element lists), `expandDns`
and `expandOriginDns` both panic, so there is nothing to flatten back. -/
theorem expand_panics_on_lists :
    expandDns (ResourceData.Get
        { stateBasic with origin_dns := [{ name := "origin.example.com" }] } "dns") =
      .error (.interfaceConversion "*schema.Set") ∧
    expandOriginDns (ResourceData.Get
        { stateBasic with origin_dns := [{ name := "origin.example.com" }] } "origin_dns") =
      .error (.interfaceConversion "*schema.Set") :=
  ⟨rfl, rfl⟩

/-- C7 (code evaluated at the failing input). On the state of the basic test
configuration `applicationFromResource` returns no request: it panics in `expandDns`.
The `origin_direct` step behind it would panic as well: the attribute is set, its value
is a slice, and the code asserts a `string`. -/
theorem applicationFromResource_configBasic :
    applicationFromResource (configBasic "zone1").toResourceData =
      .error (.interfaceConversion "*schema.Set") ∧
    ((configBasic "zone1").toResourceData.GetOk "origin_direct").2 = true ∧
    assertString ((configBasic "zone1").toResourceData.GetOk "origin_direct").1 =
      .error (.interfaceConversion "string") :=
  ⟨rfl, rfl, rfl⟩

/-! ## Claims settled against flatten and Read -/

/-- C8 (code evaluated at the failing input). For the remote application created with
`origin_direct` only, `flattenOriginDns` panics on the nil pointer, and Read on that
successful remote response panics at the flatten step. -/
theorem flattenOriginDns_nil_panics :
    flattenOriginDns appDirect.OriginDNS = .error .nilPointerDereference ∧
    (resourceCloudflareSpectrumAppRead timeFormat0 clientDirect stateBasic).outcome =
      .panicked .nilPointerDereference :=
  ⟨rfl, by decide⟩

/-- C9 (code evaluated at the failing input). Read of a state whose remote application
has a nil `origin_dns`: the call panics instead of returning success, and the attributes
after `origin_direct` keep their old local values (`tls` stays "off" though the remote
has "on", `created_on` stays empty). -/
theorem read_success_panics :
    resourceCloudflareSpectrumAppRead timeFormat0 clientDirect
        { stateBasic with protocol := "tcp/23" } =
      ⟨.panicked .nilPointerDereference, stateBasic, [Call.spectrumApplication "zone1" "app1"]⟩ ∧
    stateBasic.tls ≠ appDirect.TLS ∧ stateBasic.created_on = "" := by
  decide

/-- Read, success, when the three pointers of the remote application are set: the call
returns success, every attribute but `zone_id` is taken from the remote application
and the identifier and `zone_id` are kept. -/
theorem read_success_of_pointers (timeFormat : Time → String) (client : API)
    (d : ResourceData) (a : SpectrumApplication) (o : SpectrumApplicationOriginDNS)
    (c m : Time) (hcall : client.SpectrumApplication d.zone_id d.id = .ok a)
    (ho : a.OriginDNS = some o) (hc : a.CreatedOn = some c) (hm : a.ModifiedOn = some m) :
    resourceCloudflareSpectrumAppRead timeFormat client d =
      ⟨.ok, { id := d.id, zone_id := d.zone_id, protocol := a.Protocol,
              dns := [{ typ := a.DNS.Typ, name := a.DNS.Name }],
              origin_direct := a.OriginDirect, origin_dns := [{ name := o.Name }],
              origin_port := a.OriginPort, tls := a.TLS, ip_firewall := a.IPFirewall,
              proxy_protocol := a.ProxyProtocol, created_on := timeFormat c,
              modified_on := timeFormat m },
        [Call.spectrumApplication d.zone_id d.id]⟩ := by
  simp [resourceCloudflareSpectrumAppRead, ResourceData.Get, assertString, hcall,
    readApplication_of_pointers timeFormat a d o c m ho hc hm]

/-- C10 (counterexample). A first Read that finds the application gone clears the
identifier; the second Read then asks the remote for the empty identifier, and with a
remote that answers that request with another error the second outcome is an error
where the first was success. -/
theorem read_twice_differs :
    ¬ ((resourceCloudflareSpectrumAppRead timeFormat0 clientGoneThenOther
          (resourceCloudflareSpectrumAppRead timeFormat0 clientGoneThenOther
            stateBasic).state).outcome =
        (resourceCloudflareSpectrumAppRead timeFormat0 clientGoneThenOther
          stateBasic).outcome ∧
      (resourceCloudflareSpectrumAppRead timeFormat0 clientGoneThenOther
          (resourceCloudflareSpectrumAppRead timeFormat0 clientGoneThenOther
            stateBasic).state).state =
        (resourceCloudflareSpectrumAppRead timeFormat0 clientGoneThenOther
          stateBasic).state) := by
  decide

/-- C10 (amended). For a fixed remote, a second Read right after the first ends the same
way and leaves the same local state, when the first call succeeds, fails with another
error, or panics; and when the first call finds the application gone (and clears the
identifier), provided the remote answers the empty identifier with a not-found error too. -/
theorem read_idempotent (timeFormat : Time → String) (client : API) (d : ResourceData)
    (hgone : ∀ e, client.SpectrumApplication d.zone_id d.id = .error e →
      stringsContains e "HTTP status 404" = true →
      ∃ e0, client.SpectrumApplication d.zone_id "" = .error e0 ∧
        stringsContains e0 "HTTP status 404" = true) :
    (resourceCloudflareSpectrumAppRead timeFormat client
        (resourceCloudflareSpectrumAppRead timeFormat client d).state).outcome =
      (resourceCloudflareSpectrumAppRead timeFormat client d).outcome ∧
    (resourceCloudflareSpectrumAppRead timeFormat client
        (resourceCloudflareSpectrumAppRead timeFormat client d).state).state =
      (resourceCloudflareSpectrumAppRead timeFormat client d).state := by
  rcases hcall : client.SpectrumApplication d.zone_id d.id with e | a
  · by_cases h404 : stringsContains e "HTTP status 404" = true
    · obtain ⟨e0, hcall0, h0⟩ := hgone e hcall h404
      simp [resourceCloudflareSpectrumAppRead, ResourceData.Get, assertString, hcall, h404,
        ResourceData.SetId, hcall0, h0]
    · simp [resourceCloudflareSpectrumAppRead, ResourceData.Get, assertString, hcall, h404]
  · obtain ⟨hid, hzone⟩ := readApplication_frame timeFormat a d
    simp [resourceCloudflareSpectrumAppRead, ResourceData.Get, assertString, hcall, hid,
      hzone, readApplication_idem]

/-- Witness of C10 (amended), in the not-found case: the remote reports not-found for
every identifier, the empty one included. -/
theorem read_idempotent_witness :
    (resourceCloudflareSpectrumAppRead timeFormat0 clientGone
        (resourceCloudflareSpectrumAppRead timeFormat0 clientGone stateBasic).state).outcome =
      (resourceCloudflareSpectrumAppRead timeFormat0 clientGone stateBasic).outcome ∧
    (resourceCloudflareSpectrumAppRead timeFormat0 clientGone
        (resourceCloudflareSpectrumAppRead timeFormat0 clientGone stateBasic).state).state =
      (resourceCloudflareSpectrumAppRead timeFormat0 clientGone stateBasic).state :=
  read_idempotent timeFormat0 clientGone stateBasic
    (fun _ _ _ => ⟨"error from makeRequest: HTTP status 404: not found", rfl, by decide⟩)

end SpectrumApp
